import Mathlib

/-!
Shallow embedding of the settlement-computation engine of the Bachelor House
meal manager (src/script.js). The engine is a set of pure functions over four
in-memory record collections (members, bills, payments, meal entries) plus a
globally tracked current displayed month and an optional dashboard month
filter. Monetary amounts are modelled as rationals (the idealisation of the
JavaScript floating-point numbers), meal counts as naturals, record ids as
naturals, and date strings as a type that either parses to a calendar date or
does not (a JavaScript Invalid Date has NaN components, so every strict
equality comparison against it is false; the `invalid` branch of `inMonth`
returning `false` captures exactly that).
-/

/-- A calendar date as JavaScript exposes it: `getFullYear()` and the 0-based
`getMonth()`, plus the day of month. -/
structure Ymd where
  year : Int
  month0 : Int
  day : Int
deriving DecidableEq

/-- A date string field of a record: either it parses (via `new Date(s)`) to a
calendar date, or it is unparsable (Invalid Date). Distinct unparsable strings
are told apart by a tag so that string equality stays meaningful. -/
inductive DateStr where
  | valid (y m0 d : Int)
  | invalid (tag : Nat)
deriving DecidableEq

/-- The result of `new Date(s)` followed by reading its components: `none` for
an Invalid Date. -/
def parseDate : DateStr → Option Ymd
  | DateStr.valid y m0 d => some ⟨y, m0, d⟩
  | DateStr.invalid _ => none

/-- `new Date(d).getFullYear() === year && new Date(d).getMonth() === month0`.
For an Invalid Date both components are NaN and every strict equality against
NaN is false, so the record never matches. -/
def inMonth (d : DateStr) (year month0 : Int) : Bool :=
  match parseDate d with
  | some ymd => ymd.year == year && ymd.month0 == month0
  | none => false

/-- A member record: `{id, name, phone?, join_date}` (src/script.js:935). -/
structure MemberData where
  id : Nat
  name : String
  phone : Option String
  join_date : DateStr
deriving DecidableEq

/-- A bill record: `{id, title, bill_type, amount, date, split_type,
participants}` (src/script.js:1021). The engine reads only `amount` and
`date`; `split_type` is recorded but never consulted by the allocation. -/
structure Bill where
  id : Nat
  title : String
  bill_type : String
  amount : ℚ
  date : DateStr
  split_type : String
deriving DecidableEq

/-- A payment record: `{id, member_id, amount, date, payment_method, note?}`
(src/script.js:1110). -/
structure Payment where
  id : Nat
  member_id : Nat
  amount : ℚ
  date : DateStr
  payment_method : String
  note : Option String
deriving DecidableEq

/-- A meal-entry record: `{id, member_id, meal_date, meal_count}`
(src/script.js:652). -/
structure MealEntry where
  id : Nat
  member_id : Nat
  meal_date : DateStr
  meal_count : ℕ
deriving DecidableEq

/-- The in-memory state the engine reads: the four derived collections
(src/script.js:39-44), the globally tracked current displayed month
`currentDate` (src/script.js:1333), and the dashboard month filter
`filterMonth` (src/script.js:44), `none` when no month is selected and
`some (year, month)` with `month` in 1..12 after `"YYYY-MM".split('-')`. -/
structure St where
  members : List MemberData
  bills : List Bill
  payments : List Payment
  mealEntries : List MealEntry
  currentDate : Ymd
  filterMonth : Option (Int × Int)
deriving DecidableEq

/-- `getFilteredData()` (src/script.js:105-130): when `filterMonth` is unset
the three collections pass through unchanged; otherwise each collection is
filtered to records whose parsed date has the selected year and 0-based month
`month - 1`. -/
def getFilteredData (st : St) : List Bill × List Payment × List MealEntry :=
  match st.filterMonth with
  | none => (st.bills, st.payments, st.mealEntries)
  | some (year, month) =>
      (st.bills.filter fun b => inMonth b.date year (month - 1),
       st.payments.filter fun p => inMonth p.date year (month - 1),
       st.mealEntries.filter fun m => inMonth m.meal_date year (month - 1))

/-- `Member.getMealCountForDate(date)` (src/script.js:246-249): the first
meal entry (in sequence order) with this member id and exactly this date
string, or 0 when none exists. -/
def getMealCountForDate (mealEntries : List MealEntry) (memberId : Nat)
    (date : DateStr) : ℕ :=
  match mealEntries.find? fun m => m.member_id == memberId && m.meal_date == date with
  | some meal => meal.meal_count
  | none => 0

/-- The filter predicate of `Member.getMonthlyMealTotal()`
(src/script.js:256-260): entries of other members are rejected before the
date is parsed; then the parsed date must land in the current displayed
month. -/
def mealInCurrentMonth (cur : Ymd) (memberId : Nat) (m : MealEntry) : Bool :=
  if m.member_id != memberId then false
  else inMonth m.meal_date cur.year cur.month0

/-- `Member.getMonthlyMealTotal()` (src/script.js:251-262): the sum of
`meal_count` over every entry of this member dated in the current displayed
month (duplicates included). -/
def getMonthlyMealTotal (mealEntries : List MealEntry) (cur : Ymd)
    (memberId : Nat) : ℕ :=
  ((mealEntries.filter (mealInCurrentMonth cur memberId)).map
    (fun m => m.meal_count)).sum

/-- `Member.getTotalPaid()` (src/script.js:264-267): the sum of payment
amounts referencing this member. -/
def getTotalPaid (payments : List Payment) (memberId : Nat) : ℚ :=
  ((payments.filter fun p => p.member_id == memberId).map
    (fun p => p.amount)).sum

/-- The house-wide meal total re-derived inside `Member.getTotalBills()`
(src/script.js:271-274): the sum of `getMonthlyMealTotal()` over the whole
member list, against the same meal-entry collection. -/
def totalMealsAll (membersL : List MemberData) (mealEntries : List MealEntry)
    (cur : Ymd) : ℕ :=
  (membersL.map fun m => getMonthlyMealTotal mealEntries cur m.id).sum

/-- `Member.getTotalBills()` (src/script.js:269-280): total bill amount over
the used bills, house-wide meal total over all members; 0 when the meal total
is 0 (the early return avoiding division by zero), otherwise the per-meal
rate times this member's monthly meal total. -/
def getTotalBills (membersL : List MemberData) (usedBills : List Bill)
    (usedMealEntries : List MealEntry) (cur : Ymd) (memberId : Nat) : ℚ :=
  let totalBillAmount : ℚ := (usedBills.map fun b => b.amount).sum
  let totalMeals : ℕ := totalMealsAll membersL usedMealEntries cur
  if totalMeals = 0 then 0
  else (totalBillAmount / (totalMeals : ℚ)) *
    (getMonthlyMealTotal usedMealEntries cur memberId : ℚ)

/-- `Member.getTotalDue()` (src/script.js:282-284):
`Math.max(0, getTotalBills() - getTotalPaid())`. -/
def getTotalDue (membersL : List MemberData) (usedBills : List Bill)
    (usedPayments : List Payment) (usedMealEntries : List MealEntry)
    (cur : Ymd) (memberId : Nat) : ℚ :=
  max 0 (getTotalBills membersL usedBills usedMealEntries cur memberId -
    getTotalPaid usedPayments memberId)

/-- `BachelorHouseMealManager.totalExpense()` (src/script.js:289-291): the sum
of all bill amounts, over the unfiltered global bills collection. -/
def totalExpense (st : St) : ℚ :=
  (st.bills.map fun b => b.amount).sum

/-- `BachelorHouseMealManager.totalDeposits()` (src/script.js:293-296): the sum
of `getTotalPaid()` over all members; the `Member` objects are built with the
default (unfiltered, global) collections. -/
def totalDeposits (st : St) : ℚ :=
  (st.members.map fun m => getTotalPaid st.payments m.id).sum

/-- `BachelorHouseMealManager.totalDue()` (src/script.js:298-301): the sum of
`getTotalDue()` over all members, over the unfiltered global collections. -/
def totalDue (st : St) : ℚ :=
  (st.members.map fun m =>
    getTotalDue st.members st.bills st.payments st.mealEntries
      st.currentDate m.id).sum

/-- One row of `BachelorHouseMealManager.settlementReport()`
(src/script.js:306-313). -/
structure ReportRow where
  name : String
  join_date : DateStr
  total_paid : ℚ
  total_bills : ℚ
  total_due : ℚ
  monthly_meals : ℕ
deriving DecidableEq

/-- `BachelorHouseMealManager.settlementReport()` (src/script.js:303-315): one
row per member, computed over the unfiltered global collections. -/
def settlementReport (st : St) : List ReportRow :=
  st.members.map fun m =>
    { name := m.name
      join_date := m.join_date
      total_paid := getTotalPaid st.payments m.id
      total_bills := getTotalBills st.members st.bills st.mealEntries
        st.currentDate m.id
      total_due := getTotalDue st.members st.bills st.payments
        st.mealEntries st.currentDate m.id
      monthly_meals := getMonthlyMealTotal st.mealEntries st.currentDate m.id }

/-- The meal rate as the source computes it for the PDF report
(src/script.js:1185-1189): `totalMeals > 0 ? totalExpense / totalMeals : 0`. -/
def mealRate (st : St) : ℚ :=
  let totalMeals := totalMealsAll st.members st.mealEntries st.currentDate
  if 0 < totalMeals then totalExpense st / (totalMeals : ℚ) else 0

/-- The engine operations enumerated, with their arguments
(src/script.js:246-284, 289-315). -/
inductive EngineOp where
  | mealCountForDate (memberId : Nat) (date : DateStr)
  | monthlyMealTotal (memberId : Nat)
  | totalPaidOf (memberId : Nat)
  | totalBillsOf (memberId : Nat)
  | totalDueOf (memberId : Nat)
  | expenseTotal
  | depositsTotal
  | dueTotal
  | settlement

/-- The value an engine operation returns: a currency amount, a meal count,
or the settlement report. -/
inductive OpResult where
  | money (q : ℚ)
  | count (n : ℕ)
  | report (rows : List ReportRow)
deriving DecidableEq

/-- Running one engine operation against the state. Every method body in
src/script.js:234-316 only calls `filter`, `find`, `map` and `reduce`, none of
which mutates its receiver, and assigns to no collection, so the state
component of the result is the input state unchanged. -/
def runEngineOp (op : EngineOp) (st : St) : OpResult × St :=
  match op with
  | EngineOp.mealCountForDate memberId date =>
      (OpResult.count (getMealCountForDate st.mealEntries memberId date), st)
  | EngineOp.monthlyMealTotal memberId =>
      (OpResult.count (getMonthlyMealTotal st.mealEntries st.currentDate
        memberId), st)
  | EngineOp.totalPaidOf memberId =>
      (OpResult.money (getTotalPaid st.payments memberId), st)
  | EngineOp.totalBillsOf memberId =>
      (OpResult.money (getTotalBills st.members st.bills st.mealEntries
        st.currentDate memberId), st)
  | EngineOp.totalDueOf memberId =>
      (OpResult.money (getTotalDue st.members st.bills st.payments
        st.mealEntries st.currentDate memberId), st)
  | EngineOp.expenseTotal => (OpResult.money (totalExpense st), st)
  | EngineOp.depositsTotal => (OpResult.money (totalDeposits st), st)
  | EngineOp.dueTotal => (OpResult.money (totalDue st), st)
  | EngineOp.settlement => (OpResult.report (settlementReport st), st)

/-- The per-member metrics of the members-table view (src/script.js:334-372):
the `Member` objects are built over the collections returned by
`getFilteredData()`, so unlike the settlement report these rows depend on the
dashboard month filter. (The search query is taken empty, in which case
`getFilteredMembers()` returns the full member list, src/script.js:133.) -/
def memberTableRows (st : St) : List ReportRow :=
  let fd := getFilteredData st
  st.members.map fun m =>
    { name := m.name
      join_date := m.join_date
      total_paid := getTotalPaid fd.2.1 m.id
      total_bills := getTotalBills st.members fd.1 fd.2.2 st.currentDate m.id
      total_due := getTotalDue st.members fd.1 fd.2.1 fd.2.2
        st.currentDate m.id
      monthly_meals := getMonthlyMealTotal fd.2.2 st.currentDate m.id }

/-! Concrete states used by the scenario theorems and the witnesses. -/

/-- The displayed month January 2025 (0-based month 0). -/
def curJan : Ymd := ⟨2025, 0, 15⟩

/-- The spec scenario: members A (id 1, 30 meals this month) and B (id 2,
20 meals this month), one bill of 1000 dated this month, A paid 600. -/
def stScenario : St :=
  { members :=
      [⟨1, "A", none, DateStr.valid 2025 0 1⟩,
       ⟨2, "B", none, DateStr.valid 2025 0 2⟩]
    bills := [⟨21, "Groceries", "market", 1000, DateStr.valid 2025 0 5, "equal"⟩]
    payments := [⟨31, 1, 600, DateStr.valid 2025 0 12, "cash", none⟩]
    mealEntries :=
      [⟨11, 1, DateStr.valid 2025 0 10, 30⟩,
       ⟨12, 2, DateStr.valid 2025 0 11, 20⟩]
    currentDate := curJan
    filterMonth := none }

/-- The zero-meals scenario: one member, no meal entries in the displayed
month, one bill of 500. -/
def stZeroMeals : St :=
  { members := [⟨1, "A", none, DateStr.valid 2025 0 1⟩]
    bills := [⟨21, "Rent", "rent", 500, DateStr.valid 2025 0 5, "equal"⟩]
    payments := []
    mealEntries := []
    currentDate := curJan
    filterMonth := none }

/-- A state with the January 2025 month filter selected and, in each
collection, one record dated in that month, one dated in another month and
one with an unparsable date. -/
def stFiltered : St :=
  { members := [⟨1, "A", none, DateStr.valid 2025 0 1⟩]
    bills :=
      [⟨21, "InJan", "market", 100, DateStr.valid 2025 0 5, "equal"⟩,
       ⟨22, "InFeb", "market", 200, DateStr.valid 2025 1 5, "equal"⟩,
       ⟨23, "Bad", "market", 300, DateStr.invalid 0, "equal"⟩]
    payments :=
      [⟨31, 1, 10, DateStr.valid 2025 0 6, "cash", none⟩,
       ⟨32, 1, 20, DateStr.valid 2025 1 6, "cash", none⟩,
       ⟨33, 1, 30, DateStr.invalid 1, "cash", none⟩]
    mealEntries :=
      [⟨11, 1, DateStr.valid 2025 0 7, 1⟩,
       ⟨12, 1, DateStr.valid 2025 1 7, 2⟩,
       ⟨13, 1, DateStr.invalid 2, 3⟩]
    currentDate := curJan
    filterMonth := some (2025, 1) }

/-- A payment referencing member id 99, which exists in no member list used
below: a dangling reference. -/
def danglingPayment : Payment := ⟨41, 99, 250, DateStr.valid 2025 0 9, "cash", none⟩

/-- A meal entry referencing member id 99: a dangling reference. -/
def danglingMeal : MealEntry := ⟨42, 99, DateStr.valid 2025 0 9, 7⟩

/-- Two meal entries of the same member with the same date string: a
duplicate (member, date) pair. -/
def dupMealA : MealEntry := ⟨51, 1, DateStr.valid 2025 0 10, 2⟩

/-- The second entry of the duplicate pair. -/
def dupMealB : MealEntry := ⟨52, 1, DateStr.valid 2025 0 10, 3⟩

/-- The scenario state extended with a third member C who has no meal
entries. -/
def stThree : St :=
  { stScenario with
      members := stScenario.members ++ [⟨3, "C", none, DateStr.valid 2025 0 3⟩] }

/-- The first member of the scenario state. -/
def memberA : MemberData := ⟨1, "A", none, DateStr.valid 2025 0 1⟩

/-- The state obtained by prepending a payment and a meal entry to the
respective collections, as the record store would after two creations
(src/script.js:205-219 appends; list order is irrelevant to every sum). -/
def withDangling (st : St) (p : Payment) (e : MealEntry) : St :=
  { st with payments := p :: st.payments, mealEntries := e :: st.mealEntries }

/-! Helper lemmas shared by the claim theorems. -/

/-- A payment of a different member does not change `getTotalPaid`. -/
theorem getTotalPaid_cons_ne (p : Payment) (payments : List Payment)
    (memberId : Nat) (h : p.member_id ≠ memberId) :
    getTotalPaid (p :: payments) memberId = getTotalPaid payments memberId := by
  simp [getTotalPaid, List.filter_cons, h]

/-- A meal entry of a different member does not change
`getMonthlyMealTotal`. -/
theorem getMonthlyMealTotal_cons_ne (e : MealEntry)
    (entries : List MealEntry) (cur : Ymd) (memberId : Nat)
    (h : e.member_id ≠ memberId) :
    getMonthlyMealTotal (e :: entries) cur memberId =
      getMonthlyMealTotal entries cur memberId := by
  simp [getMonthlyMealTotal, mealInCurrentMonth, List.filter_cons, h]

/-- A meal entry whose member id belongs to no listed member does not change
the house-wide meal total. -/
theorem totalMealsAll_cons_notin (membersL : List MemberData)
    (e : MealEntry) (entries : List MealEntry) (cur : Ymd)
    (he : e.member_id ∉ membersL.map fun m => m.id) :
    totalMealsAll membersL (e :: entries) cur =
      totalMealsAll membersL entries cur := by
  unfold totalMealsAll
  congr 1
  apply List.map_congr_left
  intro m hm
  apply getMonthlyMealTotal_cons_ne
  intro hEq
  exact he (hEq ▸ List.mem_map_of_mem (fun m => m.id) hm)

/-- An unparsable date never matches a month. -/
theorem inMonth_of_unparsable (d : DateStr) (h : parseDate d = none)
    (year month0 : Int) : inMonth d year month0 = false := by
  simp [inMonth, h]

/-- Claim C1: whenever the house-wide monthly meal total is nonzero, the sum of
`getTotalBills()` over all members (the `total_bills` column of
`settlementReport()`) equals the total bill amount `totalExpense()`: the
meal-proportional allocation redistributes the full bill amount exactly
(exactly over the rationals, hence within floating-point tolerance in the
source). -/
theorem allocation_redistributes_total (st : St)
    (h : totalMealsAll st.members st.mealEntries st.currentDate ≠ 0) :
    ((settlementReport st).map fun r => r.total_bills).sum = totalExpense st := by
  have hT : ((totalMealsAll st.members st.mealEntries st.currentDate : ℕ) : ℚ) ≠ 0 :=
    Nat.cast_ne_zero.mpr h
  have hrw : ((settlementReport st).map fun r => r.total_bills).sum
      = (st.members.map fun m =>
          (totalExpense st /
            (totalMealsAll st.members st.mealEntries st.currentDate : ℚ)) *
          (getMonthlyMealTotal st.mealEntries st.currentDate m.id : ℚ)).sum := by
    simp only [settlementReport, List.map_map]
    congr 1
    apply List.map_congr_left
    intro m _
    simp only [Function.comp_apply, getTotalBills, totalExpense, if_neg h]
  rw [hrw, List.sum_map_mul_left]
  have hsum : (st.members.map fun m =>
      (getMonthlyMealTotal st.mealEntries st.currentDate m.id : ℚ)).sum
      = ((totalMealsAll st.members st.mealEntries st.currentDate : ℕ) : ℚ) := by
    simp only [totalMealsAll, Nat.cast_list_sum, List.map_map]
    rfl
  rw [hsum, div_mul_cancel₀ _ hT]

/-- Witness for C1: the two-member scenario has 50 monthly meals, and the
shares 600 + 400 sum to the bill total 1000. -/
theorem allocation_redistributes_total_witness :
    totalMealsAll stScenario.members stScenario.mealEntries
      stScenario.currentDate ≠ 0 ∧
    ((settlementReport stScenario).map fun r => r.total_bills).sum =
      totalExpense stScenario :=
  ⟨by decide, allocation_redistributes_total stScenario (by decide)⟩

/-- Claim C2: when the house-wide monthly meal total is 0, the meal rate is 0 and
`getTotalBills()` returns 0 for every member id, whatever the bills
collection holds; the division is never reached (src/script.js:276 returns
early, src/script.js:1189 guards with `totalMeals > 0`). -/
theorem zero_meals_zero_rate_and_shares (st : St)
    (h : totalMealsAll st.members st.mealEntries st.currentDate = 0) :
    mealRate st = 0 ∧
    ∀ memberId : Nat,
      getTotalBills st.members st.bills st.mealEntries st.currentDate
        memberId = 0 := by
  constructor
  · simp [mealRate, h]
  · intro memberId
    simp [getTotalBills, h]

/-- Witness for C2: one member, no meal entries, a 500 bill: rate 0 and a
zero share. -/
theorem zero_meals_zero_rate_and_shares_witness :
    mealRate stZeroMeals = 0 ∧
    getTotalBills stZeroMeals.members stZeroMeals.bills
      stZeroMeals.mealEntries stZeroMeals.currentDate 1 = 0 :=
  ⟨(zero_meals_zero_rate_and_shares stZeroMeals (by decide)).1,
   (zero_meals_zero_rate_and_shares stZeroMeals (by decide)).2 1⟩

/-- Claim C3: `getTotalDue()` equals `max 0 (getTotalBills() - getTotalPaid())`
and is therefore never negative, for every member id and every choice of
collections: an overpayment never appears as a negative due. -/
theorem due_is_floored_difference (membersL : List MemberData)
    (usedBills : List Bill) (usedPayments : List Payment)
    (usedMealEntries : List MealEntry) (cur : Ymd) (memberId : Nat) :
    getTotalDue membersL usedBills usedPayments usedMealEntries cur memberId =
      max 0 (getTotalBills membersL usedBills usedMealEntries cur memberId -
        getTotalPaid usedPayments memberId) ∧
    0 ≤ getTotalDue membersL usedBills usedPayments usedMealEntries cur
      memberId :=
  ⟨rfl, le_max_left _ _⟩

/-- Claim C4: the concrete scenario: members A (30 meals) and B (20 meals), one
bill of 1000 dated in the displayed month, A paid 600: meal rate 20, shares
600 and 400, dues 0 and 400. -/
theorem scenario_two_members :
    mealRate stScenario = 20 ∧
    settlementReport stScenario =
      [⟨"A", DateStr.valid 2025 0 1, 600, 600, 0, 30⟩,
       ⟨"B", DateStr.valid 2025 0 2, 0, 400, 400, 20⟩] := by
  constructor
  · simp [mealRate, totalExpense, totalMealsAll, getMonthlyMealTotal,
      mealInCurrentMonth, inMonth, parseDate, stScenario, curJan]
    norm_num
  · simp [settlementReport, getTotalPaid, getTotalBills, getTotalDue,
      totalMealsAll, getMonthlyMealTotal, mealInCurrentMonth, inMonth,
      parseDate, stScenario, curJan]
    norm_num

/-- Claim C5: with no month selected the time filter returns the three
collections unchanged; with a selected (year, month) it keeps exactly the
records whose parsed date has that year and calendar month; a record with an
unparsable date is excluded from the filtered result (nothing throws: the
filter is a total function). -/
theorem filter_by_month_spec (st : St) :
    (st.filterMonth = none →
      getFilteredData st = (st.bills, st.payments, st.mealEntries)) ∧
    ∀ y mo : Int, st.filterMonth = some (y, mo) →
      (∀ b : Bill, b ∈ (getFilteredData st).1 ↔
          b ∈ st.bills ∧ inMonth b.date y (mo - 1) = true) ∧
      (∀ p : Payment, p ∈ (getFilteredData st).2.1 ↔
          p ∈ st.payments ∧ inMonth p.date y (mo - 1) = true) ∧
      (∀ m : MealEntry, m ∈ (getFilteredData st).2.2 ↔
          m ∈ st.mealEntries ∧ inMonth m.meal_date y (mo - 1) = true) ∧
      (∀ b : Bill, parseDate b.date = none → b ∉ (getFilteredData st).1) ∧
      (∀ p : Payment, parseDate p.date = none → p ∉ (getFilteredData st).2.1) ∧
      (∀ m : MealEntry, parseDate m.meal_date = none →
          m ∉ (getFilteredData st).2.2) := by
  constructor
  · intro h
    simp [getFilteredData, h]
  · intro y mo h
    have hb : ∀ b : Bill, b ∈ (getFilteredData st).1 ↔
        b ∈ st.bills ∧ inMonth b.date y (mo - 1) = true := by
      intro b
      simp [getFilteredData, h, List.mem_filter]
    have hp : ∀ p : Payment, p ∈ (getFilteredData st).2.1 ↔
        p ∈ st.payments ∧ inMonth p.date y (mo - 1) = true := by
      intro p
      simp [getFilteredData, h, List.mem_filter]
    have hm : ∀ m : MealEntry, m ∈ (getFilteredData st).2.2 ↔
        m ∈ st.mealEntries ∧ inMonth m.meal_date y (mo - 1) = true := by
      intro m
      simp [getFilteredData, h, List.mem_filter]
    refine ⟨hb, hp, hm, ?_, ?_, ?_⟩
    · intro b hpd hmem
      have hIn := ((hb b).mp hmem).2
      rw [inMonth_of_unparsable b.date hpd] at hIn
      simp at hIn
    · intro p hpd hmem
      have hIn := ((hp p).mp hmem).2
      rw [inMonth_of_unparsable p.date hpd] at hIn
      simp at hIn
    · intro m hpd hmem
      have hIn := ((hm m).mp hmem).2
      rw [inMonth_of_unparsable m.meal_date hpd] at hIn
      simp at hIn

/-- Witness for C5: under the January 2025 filter, the January bill is kept
and the unparsable-date bill is excluded. -/
theorem filter_by_month_spec_witness :
    (⟨21, "InJan", "market", 100, DateStr.valid 2025 0 5, "equal"⟩ : Bill) ∈
      (getFilteredData stFiltered).1 ∧
    (⟨23, "Bad", "market", 300, DateStr.invalid 0, "equal"⟩ : Bill) ∉
      (getFilteredData stFiltered).1 := by
  have h := (filter_by_month_spec stFiltered).2 2025 1 rfl
  constructor
  · exact (h.1 _).mpr ⟨by simp [stFiltered], by rfl⟩
  · exact h.2.2.2.1 _ rfl

/-- Claim C6: a payment and a meal entry whose member id matches no member
are silently excluded: adding them changes neither the settlement report nor
`totalDeposits()` nor `totalDue()`, and every existing member's
`getTotalPaid()`, `getTotalBills()` and `getTotalDue()` are unchanged (all
operations are total functions, so nothing crashes). -/
theorem dangling_reference_excluded (st : St) (p : Payment) (e : MealEntry)
    (hp : p.member_id ∉ st.members.map fun m => m.id)
    (he : e.member_id ∉ st.members.map fun m => m.id) :
    settlementReport (withDangling st p e) = settlementReport st ∧
    totalDeposits (withDangling st p e) = totalDeposits st ∧
    totalDue (withDangling st p e) = totalDue st ∧
    ∀ m ∈ st.members,
      getTotalPaid (withDangling st p e).payments m.id =
        getTotalPaid st.payments m.id ∧
      getTotalBills (withDangling st p e).members (withDangling st p e).bills
          (withDangling st p e).mealEntries (withDangling st p e).currentDate
          m.id =
        getTotalBills st.members st.bills st.mealEntries st.currentDate m.id ∧
      getTotalDue (withDangling st p e).members (withDangling st p e).bills
          (withDangling st p e).payments (withDangling st p e).mealEntries
          (withDangling st p e).currentDate m.id =
        getTotalDue st.members st.bills st.payments st.mealEntries
          st.currentDate m.id := by
  have hpne : ∀ m ∈ st.members, p.member_id ≠ m.id := by
    intro m hm hEq
    exact hp (hEq ▸ List.mem_map_of_mem (fun m => m.id) hm)
  have hene : ∀ m ∈ st.members, e.member_id ≠ m.id := by
    intro m hm hEq
    exact he (hEq ▸ List.mem_map_of_mem (fun m => m.id) hm)
  have hTM : totalMealsAll st.members (e :: st.mealEntries) st.currentDate =
      totalMealsAll st.members st.mealEntries st.currentDate :=
    totalMealsAll_cons_notin st.members e st.mealEntries st.currentDate he
  have hpaid : ∀ m ∈ st.members,
      getTotalPaid (p :: st.payments) m.id = getTotalPaid st.payments m.id :=
    fun m hm => getTotalPaid_cons_ne p st.payments m.id (hpne m hm)
  have hmeal : ∀ m ∈ st.members,
      getMonthlyMealTotal (e :: st.mealEntries) st.currentDate m.id =
        getMonthlyMealTotal st.mealEntries st.currentDate m.id :=
    fun m hm =>
      getMonthlyMealTotal_cons_ne e st.mealEntries st.currentDate m.id
        (hene m hm)
  have hbills : ∀ m ∈ st.members,
      getTotalBills st.members st.bills (e :: st.mealEntries) st.currentDate
          m.id =
        getTotalBills st.members st.bills st.mealEntries st.currentDate m.id := by
    intro m hm
    simp only [getTotalBills, hTM, hmeal m hm]
  have hdue : ∀ m ∈ st.members,
      getTotalDue st.members st.bills (p :: st.payments) (e :: st.mealEntries)
          st.currentDate m.id =
        getTotalDue st.members st.bills st.payments st.mealEntries
          st.currentDate m.id := by
    intro m hm
    simp only [getTotalDue, hbills m hm, hpaid m hm]
  refine ⟨?_, ?_, ?_, ?_⟩
  · simp only [settlementReport, withDangling]
    apply List.map_congr_left
    intro m hm
    simp only [hpaid m hm, hbills m hm, hdue m hm, hmeal m hm]
  · simp only [totalDeposits, withDangling]
    congr 1
    apply List.map_congr_left
    intro m hm
    exact hpaid m hm
  · simp only [totalDue, withDangling]
    congr 1
    apply List.map_congr_left
    intro m hm
    exact hdue m hm
  · intro m hm
    exact ⟨hpaid m hm, hbills m hm, hdue m hm⟩

/-- Witness for C6: adding a payment and a meal entry of the deleted member
id 99 to the two-member scenario changes no report and no total of member A. -/
theorem dangling_reference_excluded_witness :
    settlementReport (withDangling stScenario danglingPayment danglingMeal) =
      settlementReport stScenario ∧
    totalDeposits (withDangling stScenario danglingPayment danglingMeal) =
      totalDeposits stScenario ∧
    totalDue (withDangling stScenario danglingPayment danglingMeal) =
      totalDue stScenario ∧
    getTotalPaid
        (withDangling stScenario danglingPayment danglingMeal).payments
        memberA.id =
      getTotalPaid stScenario.payments memberA.id := by
  have h := dangling_reference_excluded stScenario danglingPayment
    danglingMeal (by decide) (by decide)
  have hmem : memberA ∈ stScenario.members := by
    simp [stScenario, memberA]
  exact ⟨h.1, h.2.1, h.2.2.1, (h.2.2.2 memberA hmem).1⟩

/-- Claim C7: a member with zero recorded meals in the displayed month has a
bill share of exactly 0, whatever the bill total and the other members' meal
counts: either the house total is 0 (early return) or the rate is multiplied
by this member's zero meal count. -/
theorem zero_meal_member_zero_share (membersL : List MemberData)
    (usedBills : List Bill) (usedMealEntries : List MealEntry) (cur : Ymd)
    (memberId : Nat)
    (h : getMonthlyMealTotal usedMealEntries cur memberId = 0) :
    getTotalBills membersL usedBills usedMealEntries cur memberId = 0 := by
  by_cases hT : totalMealsAll membersL usedMealEntries cur = 0
  · simp [getTotalBills, hT]
  · simp [getTotalBills, hT, h]

/-- Witness for C7: member C of the three-member state has no meals while
the house has 50, and C's share is 0 despite the 1000 bill. -/
theorem zero_meal_member_zero_share_witness :
    getMonthlyMealTotal stThree.mealEntries stThree.currentDate 3 = 0 ∧
    getTotalBills stThree.members stThree.bills stThree.mealEntries
      stThree.currentDate 3 = 0 :=
  ⟨by decide,
   zero_meal_member_zero_share stThree.members stThree.bills
     stThree.mealEntries stThree.currentDate 3 (by decide)⟩

/-- Claim C8: every engine operation returns its value and leaves the state
(all four collections, the displayed month and the filter) exactly as it
was: the method bodies in src/script.js:234-316 contain no assignment and
only non-mutating array operations. -/
theorem engine_operations_preserve_state (op : EngineOp) (st : St) :
    (runEngineOp op st).2 = st := by
  cases op <;> rfl

/-- Claim C9: `settlementReport()`, `totalExpense()`, `totalDeposits()` and
`totalDue()` read only the unfiltered global collections, so their outputs
are identical for any two values of the dashboard month filter; the
members-table metrics, built over `getFilteredData()`, do depend on the
filter (the two-member scenario renders shares 600 and 400 with no filter
and 0 and 0 under an empty January 2024 filter). -/
theorem aggregates_independent_of_month_filter :
    (∀ (st : St) (fm1 fm2 : Option (Int × Int)),
      settlementReport { st with filterMonth := fm1 } =
        settlementReport { st with filterMonth := fm2 } ∧
      totalExpense { st with filterMonth := fm1 } =
        totalExpense { st with filterMonth := fm2 } ∧
      totalDeposits { st with filterMonth := fm1 } =
        totalDeposits { st with filterMonth := fm2 } ∧
      totalDue { st with filterMonth := fm1 } =
        totalDue { st with filterMonth := fm2 }) ∧
    memberTableRows { stScenario with filterMonth := none } ≠
      memberTableRows { stScenario with filterMonth := some (2024, 1) } := by
  constructor
  · intro st fm1 fm2
    exact ⟨rfl, rfl, rfl, rfl⟩
  · intro hEq
    have hA : ((memberTableRows { stScenario with filterMonth := none }).map
        fun r => r.total_bills) = [600, 400] := by
      simp [memberTableRows, getFilteredData, getTotalPaid, getTotalBills,
        getTotalDue, totalMealsAll, getMonthlyMealTotal, mealInCurrentMonth,
        inMonth, parseDate, stScenario, curJan]
      norm_num
    have hB : ((memberTableRows
        { stScenario with filterMonth := some (2024, 1) }).map
        fun r => r.total_bills) = [0, 0] := by
      simp [memberTableRows, getFilteredData, getTotalPaid, getTotalBills,
        getTotalDue, totalMealsAll, getMonthlyMealTotal, mealInCurrentMonth,
        inMonth, parseDate, stScenario, curJan]
    rw [hEq, hB] at hA
    simp at hA

/-- Claim C10: with duplicate meal entries for the same (member, date) pair,
`getMealCountForDate()` returns the count of the first matching entry in
sequence order and ignores the rest, while `getMonthlyMealTotal()` sums
every duplicate; concretely, two entries of member 1 on the same January day
with counts 2 and 3 give a per-day count of 2 but contribute 5 to the
monthly total. -/
theorem duplicate_meal_entries_first_vs_sum
    (pre rest : List MealEntry) (e : MealEntry) (memberId : Nat)
    (d : DateStr) (cur : Ymd)
    (hmatch : (e.member_id == memberId && e.meal_date == d) = true)
    (hpre : ∀ e0 ∈ pre,
      (e0.member_id == memberId && e0.meal_date == d) = false) :
    getMealCountForDate (pre ++ e :: rest) memberId d = e.meal_count ∧
    getMonthlyMealTotal (pre ++ e :: rest) cur memberId =
      getMonthlyMealTotal pre cur memberId +
        getMonthlyMealTotal (e :: rest) cur memberId ∧
    getMealCountForDate [dupMealA, dupMealB] 1 (DateStr.valid 2025 0 10) =
      dupMealA.meal_count ∧
    getMonthlyMealTotal [dupMealA, dupMealB] curJan 1 =
      dupMealA.meal_count + dupMealB.meal_count := by
  refine ⟨?_, ?_, by decide, by decide⟩
  · unfold getMealCountForDate
    have hnone : pre.find?
        (fun m => m.member_id == memberId && m.meal_date == d) = none :=
      List.find?_eq_none.mpr (by
        intro x hx
        simp [hpre x hx])
    rw [List.find?_append, hnone, List.find?_cons_of_pos rest hmatch]
    rfl
  · simp [getMonthlyMealTotal, List.filter_append]

/-- Witness for C10: with the duplicate pair (counts 2 and 3) as the whole
collection, the per-day count is the first entry's 2. -/
theorem duplicate_meal_entries_first_vs_sum_witness :
    getMealCountForDate ([] ++ dupMealA :: [dupMealB]) 1
      (DateStr.valid 2025 0 10) = dupMealA.meal_count :=
  (duplicate_meal_entries_first_vs_sum [] [dupMealB] dupMealA 1
    (DateStr.valid 2025 0 10) curJan (by decide) (by simp)).1
